import Mathlib

/-!
Shallow embedding of the `map-range` crate (`src/lib.rs`).

The crate exposes two generic operations:

* `MapRange::map_range`, computing
  `to.start + (self - from.start) * (to.end - to.start) / (from.end - from.start)`
  with the numeric type's plain operators (which panic on overflow under
  debug assertions — the crate's own doctests document the panics — and
  on division by zero);
* `CheckedMapRange::checked_map_range`, the same pipeline through
  `num_traits`' checked operators, returning `Option`.

We embed both as `Option`-valued evaluations over a record of the four
operators: for the unchecked variant `none` models a panic, for the
checked variant `none` is the checked operators' failure value.  The
operators are instantiated for the machine-integer families the crate is
used at: width-`w` unsigned integers (naturals below `2 ^ w`) and
width-`w` two's-complement signed integers (integers in
`[-2 ^ (w - 1), 2 ^ (w - 1))`, with Rust's truncated division).
-/

/-- Half-open range `start .. stop`, as `core::ops::Range`.  The second
field is Rust's `end`, renamed because `end` is a Lean keyword. -/
structure Range (α : Type) where
  start : α
  stop : α

/-- The four plain arithmetic operators of a numeric type, with panics made
explicit: a `none` result models the operator panicking (debug overflow
checks, division by zero). -/
structure Ops (α : Type) where
  add : α → α → Option α
  sub : α → α → Option α
  mul : α → α → Option α
  div : α → α → Option α

/-- The four checked operators (`num_traits`' `CheckedAdd`, `CheckedSub`,
`CheckedMul`, `CheckedDiv`): `none` is the checked operators' failure
value. -/
structure CheckedOps (α : Type) where
  checked_add : α → α → Option α
  checked_sub : α → α → Option α
  checked_mul : α → α → Option α
  checked_div : α → α → Option α

/-- Rust `MapRange::map_range`:
`to.start + (self - from.start) * (to.end - to.start) / (from.end - from.start)`,
evaluated with the type's plain operators in Rust's operand order
(subtract, subtract, multiply, subtract, divide, add); a `none` is an
operator panic, which aborts the whole computation. -/
def map_range (ops : Ops α) (self : α) (f t : Range α) : Option α := do
  let d ← ops.sub self f.start
  let tw ← ops.sub t.stop t.start
  let p ← ops.mul d tw
  let fw ← ops.sub f.stop f.start
  let q ← ops.div p fw
  ops.add t.start q

/-- Rust `CheckedMapRange::checked_map_range`: the same pipeline through the
checked operators, `?` propagating `none`, and the outermost
`to.start.checked_add(..)` wrapping the result. -/
def checked_map_range (ops : CheckedOps α) (self : α) (f t : Range α) :
    Option α := do
  let d ← ops.checked_sub self f.start
  let tw ← ops.checked_sub t.stop t.start
  let p ← ops.checked_mul d tw
  let fw ← ops.checked_sub f.stop f.start
  let q ← ops.checked_div p fw
  ops.checked_add t.start q

/-- Width-`w` unsigned machine integers, plain operators under debug
overflow checks: an operator panics (`none`) when the exact result is not
representable below `2 ^ w`, and division panics on a zero divisor. -/
def uOps (w : Nat) : Ops Nat where
  add a b := if a + b < 2 ^ w then some (a + b) else none
  sub a b := if b ≤ a then some (a - b) else none
  mul a b := if a * b < 2 ^ w then some (a * b) else none
  div a b := if b = 0 then none else some (a / b)

/-- Width-`w` unsigned machine integers, checked operators
(`checked_add` and friends fail on exactly the conditions the plain
operators panic on under debug assertions). -/
def uChecked (w : Nat) : CheckedOps Nat where
  checked_add a b := if a + b < 2 ^ w then some (a + b) else none
  checked_sub a b := if b ≤ a then some (a - b) else none
  checked_mul a b := if a * b < 2 ^ w then some (a * b) else none
  checked_div a b := if b = 0 then none else some (a / b)

/-- Representability predicate of width-`w` two's-complement signed
integers: `-(2 ^ (w - 1)) ≤ v < 2 ^ (w - 1)`. -/
def inS (w : Nat) (v : Int) : Prop :=
  -(2 ^ (w - 1) : Int) ≤ v ∧ v < 2 ^ (w - 1)

instance (w : Nat) (v : Int) : Decidable (inS w v) :=
  inferInstanceAs (Decidable (_ ∧ _))

/-- Keep an exact signed result when it is representable at width `w`. -/
def sChk (w : Nat) (v : Int) : Option Int :=
  if inS w v then some v else none

/-- Width-`w` signed machine integers, plain operators under debug
overflow checks: add, sub and mul panic when the exact result leaves the
representable window; division panics on a zero divisor and on the
`MIN / -1` overflow (Rust division truncates toward zero, `Int.tdiv`). -/
def iOps (w : Nat) : Ops Int where
  add a b := sChk w (a + b)
  sub a b := sChk w (a - b)
  mul a b := sChk w (a * b)
  div a b := if b = 0 then none else sChk w (a.tdiv b)

/-- Width-`w` signed machine integers, checked operators (failure on the
same conditions: overflow, zero divisor, `MIN / -1`). -/
def iChecked (w : Nat) : CheckedOps Int where
  checked_add a b := sChk w (a + b)
  checked_sub a b := sChk w (a - b)
  checked_mul a b := sChk w (a * b)
  checked_div a b := if b = 0 then none else sChk w (a.tdiv b)

/-- The crate's formula read over unbounded signed integers with Rust's
truncated division: `b0 + (x - a0) * (b1 - b0) / (a1 - a0)`. -/
def map_range_formula (x a0 a1 b0 b1 : Int) : Int :=
  b0 + ((x - a0) * (b1 - b0)).tdiv (a1 - a0)

/-- The crate's formula read over unsigned integers (natural subtraction
agrees with machine subtraction whenever the latter does not underflow):
`b0 + (x - a0) * (b1 - b0) / (a1 - a0)`. -/
def map_range_formulaU (x a0 a1 b0 b1 : Nat) : Nat :=
  b0 + (x - a0) * (b1 - b0) / (a1 - a0)

/-! Helper lemmas shared by several claims. -/

/-- If the source-width subtraction yields a value the division rejects,
the checked pipeline returns `none` no matter what the earlier steps did. -/
theorem checked_map_range_none_of_div (ops : CheckedOps α) (x : α)
    (f t : Range α) (z : α) (hz : ops.checked_sub f.stop f.start = some z)
    (hdiv : ∀ p, ops.checked_div p z = none) :
    checked_map_range ops x f t = none := by
  unfold checked_map_range
  rcases hd : ops.checked_sub x f.start with _ | d
  · simp [hd]
  rcases htw : ops.checked_sub t.stop t.start with _ | tw
  · simp [hd, htw]
  rcases hp : ops.checked_mul d tw with _ | p
  · simp [hd, htw, hp]
  simp [hd, htw, hp, hz, hdiv]

/-- Same shape for the plain-operator evaluation of `map_range`. -/
theorem map_range_none_of_div (ops : Ops α) (x : α)
    (f t : Range α) (z : α) (hz : ops.sub f.stop f.start = some z)
    (hdiv : ∀ p, ops.div p z = none) :
    map_range ops x f t = none := by
  unfold map_range
  rcases hd : ops.sub x f.start with _ | d
  · simp [hd]
  rcases htw : ops.sub t.stop t.start with _ | tw
  · simp [hd, htw]
  rcases hp : ops.mul d tw with _ | p
  · simp [hd, htw, hp]
  simp [hd, htw, hp, hz, hdiv]

/-- Every `some` result of the checked pipeline comes out of the final
checked addition, so it satisfies anything that addition guarantees. -/
theorem checked_map_range_cases (ops : CheckedOps α) (P : α → Prop)
    (hadd : ∀ a b v, ops.checked_add a b = some v → P v) (x : α)
    (f t : Range α) :
    checked_map_range ops x f t = none ∨
      ∃ v, checked_map_range ops x f t = some v ∧ P v := by
  unfold checked_map_range
  rcases hd : ops.checked_sub x f.start with _ | d
  · left; simp [hd]
  rcases htw : ops.checked_sub t.stop t.start with _ | tw
  · left; simp [hd, htw]
  rcases hp : ops.checked_mul d tw with _ | p
  · left; simp [hd, htw, hp]
  rcases hfw : ops.checked_sub f.stop f.start with _ | fw
  · left; simp [hd, htw, hp, hfw]
  rcases hq : ops.checked_div p fw with _ | q
  · left; simp [hd, htw, hp, hfw, hq]
  rcases hr : ops.checked_add t.start q with _ | v
  · left; simp [hd, htw, hp, hfw, hq, hr]
  · right
    exact ⟨v, by simp [hd, htw, hp, hfw, hq, hr], hadd _ _ _ hr⟩

/-- Zero is representable at every signed width. -/
theorem inS_zero (w : Nat) : inS w 0 :=
  ⟨by simp, by positivity⟩

/-- Claim C3: `checked_map_range` on a degenerate source interval
`[a, a)` returns `none` for every value, destination, and width, in both
the unsigned and the signed machine-integer families: the source-width
checked subtraction yields `0` and the checked division by `0` fails. -/
theorem checked_map_range_degenerate_source (w : Nat) (x a b0 b1 : Nat)
    (xi ai c0 c1 : Int) :
    checked_map_range (uChecked w) x ⟨a, a⟩ ⟨b0, b1⟩ = none ∧
    checked_map_range (iChecked w) xi ⟨ai, ai⟩ ⟨c0, c1⟩ = none := by
  constructor
  · exact checked_map_range_none_of_div (uChecked w) x _ _ 0
      (by simp [uChecked]) (fun p => by simp [uChecked])
  · exact checked_map_range_none_of_div (iChecked w) xi _ _ 0
      (by simp [iChecked, sChk, inS_zero w]) (fun p => by simp [iChecked])

/-- Claim C4: the unchecked `map_range` on a degenerate source interval
`[a, a)` panics (modelled as `none`) for every value, destination, and
width, in both machine-integer families: execution always aborts, either
at an earlier overflow or at the division by the zero source width. -/
theorem map_range_degenerate_source_panics (w : Nat) (x a b0 b1 : Nat)
    (xi ai c0 c1 : Int) :
    map_range (uOps w) x ⟨a, a⟩ ⟨b0, b1⟩ = none ∧
    map_range (iOps w) xi ⟨ai, ai⟩ ⟨c0, c1⟩ = none := by
  constructor
  · exact map_range_none_of_div (uOps w) x _ _ 0
      (by simp [uOps]) (fun p => by simp [uOps])
  · exact map_range_none_of_div (iOps w) xi _ _ 0
      (by simp [iOps, sChk, inS_zero w]) (fun p => by simp [iOps])

/-- Claim C6: for unsigned values, whenever `x < from.start` the first
checked subtraction underflows and `checked_map_range` returns `none`. -/
theorem checked_map_range_unsigned_underflow (w : Nat) (x a0 a1 b0 b1 : Nat)
    (h : x < a0) :
    checked_map_range (uChecked w) x ⟨a0, a1⟩ ⟨b0, b1⟩ = none := by
  unfold checked_map_range
  have hs : (uChecked w).checked_sub x a0 = none := by
    simp [uChecked]; omega
  simp [hs]

theorem checked_map_range_unsigned_underflow_witness :
    10 < 20 ∧ checked_map_range (uChecked 32) 10 ⟨20, 30⟩ ⟨20, 40⟩ = none :=
  ⟨by decide,
    checked_map_range_unsigned_underflow 32 10 20 30 20 40 (by decide)⟩

/-- Claim C7: `checked_map_range` is total — for every input of either
machine-integer family it returns `none` or `some v` with `v` a
representable value of the type; no other outcome exists. -/
theorem checked_map_range_total (w : Nat) (x a0 a1 b0 b1 : Nat)
    (xi c0 c1 d0 d1 : Int) :
    (checked_map_range (uChecked w) x ⟨a0, a1⟩ ⟨b0, b1⟩ = none ∨
      ∃ v, checked_map_range (uChecked w) x ⟨a0, a1⟩ ⟨b0, b1⟩ = some v ∧
        v < 2 ^ w) ∧
    (checked_map_range (iChecked w) xi ⟨c0, c1⟩ ⟨d0, d1⟩ = none ∨
      ∃ v, checked_map_range (iChecked w) xi ⟨c0, c1⟩ ⟨d0, d1⟩ = some v ∧
        inS w v) := by
  constructor
  · refine checked_map_range_cases (uChecked w) (fun v => v < 2 ^ w) ?_ x _ _
    intro a b v h
    simp only [uChecked] at h
    split at h
    · cases h; assumption
    · cases h
  · refine checked_map_range_cases (iChecked w) (inS w) ?_ xi _ _
    intro a b v h
    simp only [iChecked, sChk] at h
    split at h
    · cases h; assumption
    · cases h

/-- Claim C8: the result is not clamped — extrapolation outside both
intervals is returned as-is: `10_i32.map_range(0..5, -5..0)` evaluates
without panic to `5`, and `10_i32.map_range(0..5, 0..-5)` to `-10`. -/
theorem map_range_extrapolates :
    map_range (iOps 32) 10 ⟨0, 5⟩ ⟨-5, 0⟩ = some 5 ∧
    map_range (iOps 32) 10 ⟨0, 5⟩ ⟨0, -5⟩ = some (-10) := by
  decide

/-- Claim C9: `10_u32.checked_map_range(0..5, 5..2)` is `none` (the
reversed unsigned destination makes `to.end - to.start` underflow) and
`10_u32.checked_map_range(0..5, 2..5)` is `some 8`. -/
theorem checked_map_range_u32_examples :
    checked_map_range (uChecked 32) 10 ⟨0, 5⟩ ⟨5, 2⟩ = none ∧
    checked_map_range (uChecked 32) 10 ⟨0, 5⟩ ⟨2, 5⟩ = some 8 := by
  decide

/-- Claim C1: whenever every intermediate step is representable (the two
subtractions, the product, the nonzero source width, the quotient, and
the final sum), `map_range` returns exactly
`b0 + (x - a0) * (b1 - b0) / (a1 - a0)` computed with the type's native
arithmetic in that order, in both machine-integer families. -/
theorem map_range_affine (w : Nat) (x a0 a1 b0 b1 : Int) (xu c0 c1 d0 d1 : Nat)
    (h1 : inS w (x - a0)) (h2 : inS w (b1 - b0))
    (h3 : inS w ((x - a0) * (b1 - b0)))
    (h4 : a1 - a0 ≠ 0) (h5 : inS w (a1 - a0))
    (h6 : inS w (((x - a0) * (b1 - b0)).tdiv (a1 - a0)))
    (h7 : inS w (b0 + ((x - a0) * (b1 - b0)).tdiv (a1 - a0)))
    (hu1 : c0 ≤ xu) (hu2 : d0 ≤ d1) (hu3 : (xu - c0) * (d1 - d0) < 2 ^ w)
    (hu4 : c0 ≤ c1) (hu5 : c1 - c0 ≠ 0)
    (hu6 : d0 + (xu - c0) * (d1 - d0) / (c1 - c0) < 2 ^ w) :
    map_range (iOps w) x ⟨a0, a1⟩ ⟨b0, b1⟩ =
      some (map_range_formula x a0 a1 b0 b1) ∧
    map_range (uOps w) xu ⟨c0, c1⟩ ⟨d0, d1⟩ =
      some (map_range_formulaU xu c0 c1 d0 d1) := by
  constructor
  · unfold map_range iOps sChk map_range_formula
    simp [h1, h2, h3, h4, h5, h6, h7]
  · unfold map_range uOps map_range_formulaU
    simp [hu1, hu2, hu3, hu4, hu5, hu6]

theorem map_range_affine_witness :
    map_range (iOps 32) 10 ⟨0, 5⟩ ⟨-5, 0⟩ =
      some (map_range_formula 10 0 5 (-5) 0) ∧
    map_range (uOps 32) 10 ⟨0, 5⟩ ⟨2, 5⟩ =
      some (map_range_formulaU 10 0 5 2 5) :=
  map_range_affine 32 10 0 5 (-5) 0 10 0 5 2 5
    (by decide) (by decide) (by decide) (by decide) (by decide) (by decide)
    (by decide) (by decide) (by decide) (by decide) (by decide) (by decide)
    (by decide)

/-- Claim C2: whenever every intermediate step is representable,
`checked_map_range` returns `some` of exactly the value the unchecked
`map_range` evaluates to, in both machine-integer families. -/
theorem checked_map_range_agrees (w : Nat) (x a0 a1 b0 b1 : Int)
    (xu c0 c1 d0 d1 : Nat)
    (h1 : inS w (x - a0)) (h2 : inS w (b1 - b0))
    (h3 : inS w ((x - a0) * (b1 - b0)))
    (h4 : a1 - a0 ≠ 0) (h5 : inS w (a1 - a0))
    (h6 : inS w (((x - a0) * (b1 - b0)).tdiv (a1 - a0)))
    (h7 : inS w (b0 + ((x - a0) * (b1 - b0)).tdiv (a1 - a0)))
    (hu1 : c0 ≤ xu) (hu2 : d0 ≤ d1) (hu3 : (xu - c0) * (d1 - d0) < 2 ^ w)
    (hu4 : c0 ≤ c1) (hu5 : c1 - c0 ≠ 0)
    (hu6 : d0 + (xu - c0) * (d1 - d0) / (c1 - c0) < 2 ^ w) :
    (∃ v, map_range (iOps w) x ⟨a0, a1⟩ ⟨b0, b1⟩ = some v ∧
      checked_map_range (iChecked w) x ⟨a0, a1⟩ ⟨b0, b1⟩ = some v) ∧
    (∃ v, map_range (uOps w) xu ⟨c0, c1⟩ ⟨d0, d1⟩ = some v ∧
      checked_map_range (uChecked w) xu ⟨c0, c1⟩ ⟨d0, d1⟩ = some v) := by
  constructor
  · refine ⟨map_range_formula x a0 a1 b0 b1, ?_, ?_⟩
    · unfold map_range iOps sChk map_range_formula
      simp [h1, h2, h3, h4, h5, h6, h7]
    · unfold checked_map_range iChecked sChk map_range_formula
      simp [h1, h2, h3, h4, h5, h6, h7]
  · refine ⟨map_range_formulaU xu c0 c1 d0 d1, ?_, ?_⟩
    · unfold map_range uOps map_range_formulaU
      simp [hu1, hu2, hu3, hu4, hu5, hu6]
    · unfold checked_map_range uChecked map_range_formulaU
      simp [hu1, hu2, hu3, hu4, hu5, hu6]

theorem checked_map_range_agrees_witness :
    (∃ v, map_range (iOps 32) 10 ⟨0, 5⟩ ⟨-5, 0⟩ = some v ∧
      checked_map_range (iChecked 32) 10 ⟨0, 5⟩ ⟨-5, 0⟩ = some v) ∧
    (∃ v, map_range (uOps 32) 10 ⟨0, 5⟩ ⟨2, 5⟩ = some v ∧
      checked_map_range (uChecked 32) 10 ⟨0, 5⟩ ⟨2, 5⟩ = some v) :=
  checked_map_range_agrees 32 10 0 5 (-5) 0 10 0 5 2 5
    (by decide) (by decide) (by decide) (by decide) (by decide) (by decide)
    (by decide) (by decide) (by decide) (by decide) (by decide) (by decide)
    (by decide)

/-- Claim C5 fails as stated: mapping a range onto itself is not
unconditionally a no-op on machine integers.  At `200_u8` with
`I = [0, 10)` the intermediate product `200 * 10` overflows 8 bits, so
`map_range` panics instead of returning `200`. -/
theorem map_range_identity_cex :
    map_range (uOps 8) 200 ⟨0, 10⟩ ⟨0, 10⟩ = none ∧
    map_range (uOps 8) 200 ⟨0, 10⟩ ⟨0, 10⟩ ≠ some 200 := by
  decide

/-- Claim C5 (amended): for a non-degenerate interval `I`,
`x.map_range(I, I) = x` whenever every intermediate step is
representable, in both machine-integer families. -/
theorem map_range_identity (w : Nat) (x a0 a1 : Int) (xu c0 c1 : Nat)
    (h1 : inS w (x - a0)) (h2 : inS w (a1 - a0)) (h3 : a1 - a0 ≠ 0)
    (h4 : inS w ((x - a0) * (a1 - a0))) (h5 : inS w x)
    (hu1 : c0 ≤ xu) (hu2 : c0 ≤ c1) (hu3 : c1 - c0 ≠ 0)
    (hu4 : (xu - c0) * (c1 - c0) < 2 ^ w) (hu5 : xu < 2 ^ w) :
    map_range (iOps w) x ⟨a0, a1⟩ ⟨a0, a1⟩ = some x ∧
    map_range (uOps w) xu ⟨c0, c1⟩ ⟨c0, c1⟩ = some xu := by
  constructor
  · have hq : ((x - a0) * (a1 - a0)).tdiv (a1 - a0) = x - a0 :=
      Int.mul_tdiv_cancel _ h3
    have he : a0 + (x - a0) = x := by ring
    unfold map_range iOps sChk
    simp [h1, h2, h3, h4, hq, he, h5]
  · have hq : (xu - c0) * (c1 - c0) / (c1 - c0) = xu - c0 :=
      Nat.mul_div_cancel _ (Nat.pos_of_ne_zero hu3)
    have he : c0 + (xu - c0) = xu := by omega
    unfold map_range uOps
    simp [hu1, hu2, hu3, hq, hu4, he, hu5]

theorem map_range_identity_witness :
    map_range (iOps 32) 7 ⟨-3, 12⟩ ⟨-3, 12⟩ = some 7 ∧
    map_range (uOps 32) 7 ⟨2, 12⟩ ⟨2, 12⟩ = some 7 :=
  map_range_identity 32 7 (-3) 12 7 2 12
    (by decide) (by decide) (by decide) (by decide) (by decide)
    (by decide) (by decide) (by decide) (by decide) (by decide)

/-- Claim C10 fails as stated: a degenerate destination does not always
give `Some(b)`.  With the non-degenerate unsigned source `5..2` and
`x = 10` (so `x - from.start = 5` is representable), the width
subtraction `2 - 5` underflows and the checked pipeline yields `none`,
not `some 7`. -/
theorem checked_degenerate_destination_cex :
    checked_map_range (uChecked 32) 10 ⟨5, 2⟩ ⟨7, 7⟩ = none ∧
    checked_map_range (uChecked 32) 10 ⟨5, 2⟩ ⟨7, 7⟩ ≠ some 7 := by
  decide

/-- Claim C10 (amended): a degenerate destination `[b, b)` is not an
error: if additionally the source width `from.end - from.start` is
representable (and `b` is a value of the type), `checked_map_range`
returns `some b`, in both machine-integer families. -/
theorem checked_degenerate_destination (w : Nat) (x a0 a1 b : Int)
    (xu c0 c1 bu : Nat)
    (h1 : inS w (x - a0)) (h2 : inS w (a1 - a0)) (h3 : a1 - a0 ≠ 0)
    (h4 : inS w b)
    (hu1 : c0 ≤ xu) (hu2 : c0 ≤ c1) (hu3 : c1 - c0 ≠ 0) (hu4 : bu < 2 ^ w) :
    checked_map_range (iChecked w) x ⟨a0, a1⟩ ⟨b, b⟩ = some b ∧
    checked_map_range (uChecked w) xu ⟨c0, c1⟩ ⟨bu, bu⟩ = some bu := by
  constructor
  · have h0 : inS w 0 := inS_zero w
    have he : b + 0 = b := by ring
    unfold checked_map_range iChecked sChk
    simp [h1, h2, h3, h0, h4, he]
  · have hp : 0 < 2 ^ w := by positivity
    unfold checked_map_range uChecked
    simp [hu1, hu2, hu3, hu4, hp]

theorem checked_degenerate_destination_witness :
    checked_map_range (iChecked 32) 10 ⟨0, 5⟩ ⟨-7, -7⟩ = some (-7) ∧
    checked_map_range (uChecked 32) 10 ⟨0, 5⟩ ⟨7, 7⟩ = some 7 :=
  checked_degenerate_destination 32 10 0 5 (-7) 10 0 5 7
    (by decide) (by decide) (by decide) (by decide)
    (by decide) (by decide) (by decide) (by decide)
